import Mathlib

/-!
Shallow embedding of `src/app.py` (local-lead-finder): a Flask app with two
handlers, `api_search` (POST /api/search) and `api_export_csv`
(POST /api/export), built on two upstream helpers `google_text_search_once`
and `google_place_details`.

Python/JSON values are modelled by `PyVal`; upstream HTTP traffic is modelled
by an oracle `Upstream` mapping outbound request parameters to either a parsed
JSON response (`r.json()`) or a raised exception (`PyErr`).  Each handler also
returns the trace of outbound calls it attempted, so that claims about "zero
outbound calls" or "no details calls" can be stated.
-/

/-- A Python value as it appears in this program: the JSON-decodable values
(`None`, booleans, integers, strings, lists, dicts).  Floats are represented
by their integer cases only; no claim depends on non-integral numerics. -/
inductive PyVal where
  | none : PyVal
  | bool : Bool → PyVal
  | int : Int → PyVal
  | str : String → PyVal
  | list : List PyVal → PyVal
  | dict : List (String × PyVal) → PyVal

/-- Python truthiness: `None`, `False`, `0`, `""`, `[]`, `{}` are falsy. -/
def PyVal.truthy : PyVal → Bool
  | .none => false
  | .bool b => b
  | .int n => n != 0
  | .str s => !(s == "")
  | .list xs => !(xs.isEmpty)
  | .dict fs => !(fs.isEmpty)

/-- Is this value a Python `list`?  (`isinstance(x, list)`) -/
def PyVal.isList : PyVal → Bool
  | .list _ => true
  | _ => false

/-- Is this value a Python `dict` (a mapping with a `.get` method)? -/
def PyVal.isDict : PyVal → Bool
  | .dict _ => true
  | _ => false

/-- Exceptions this program can raise or receive from `requests`.
`httpError` is `requests.HTTPError`; `timeout` / `connectionError` are the
transport failures (`requests.Timeout`, `requests.ConnectionError`), which are
NOT subclasses of `requests.HTTPError`; `jsonError` is a body that fails to
parse in `r.json()`; `attributeError` / `typeError` arise from duck-typing
slips inside the handler. -/
inductive PyErr where
  | httpError : String → PyErr
  | timeout : String → PyErr
  | connectionError : String → PyErr
  | jsonError : String → PyErr
  | attributeError : String → PyErr
  | typeError : String → PyErr

/-- Does `except requests.HTTPError` catch this exception?  Only the
`HTTPError` case; timeouts and connection failures are other subclasses of
`requests.RequestException` and fall through to `except Exception`. -/
def PyErr.isRequestsHTTPError : PyErr → Bool
  | .httpError _ => true
  | _ => false

/-- `str(e)` for a raised exception: the carried message. -/
def PyErr.msg : PyErr → String
  | .httpError m => m
  | .timeout m => m
  | .connectionError m => m
  | .jsonError m => m
  | .attributeError m => m
  | .typeError m => m

mutual
/-- Python `repr(v)` for the values above (used by `str()` inside lists and
dicts). -/
def pyRepr : PyVal → String
  | .none => "None"
  | .bool true => "True"
  | .bool false => "False"
  | .int n => toString n
  | .str s => "\x27" ++ s ++ "\x27"
  | .list xs => "[" ++ pyReprList xs ++ "]"
  | .dict fs => "\x7b" ++ pyReprDict fs ++ "\x7d"

/-- Comma-separated `repr`s of the elements of a list. -/
def pyReprList : List PyVal → String
  | [] => ""
  | [x] => pyRepr x
  | x :: y :: xs => pyRepr x ++ ", " ++ pyReprList (y :: xs)

/-- Comma-separated `repr`s of the key/value pairs of a dict. -/
def pyReprDict : List (String × PyVal) → String
  | [] => ""
  | [(k, v)] => "\x27" ++ k ++ "\x27" ++ ": " ++ pyRepr v
  | (k, v) :: p :: fs =>
      "\x27" ++ k ++ "\x27" ++ ": " ++ pyRepr v ++ ", " ++ pyReprDict (p :: fs)
end

/-- Python `str(v)`: identity on strings, `repr` otherwise (this is how
`csv.writer` renders a non-string cell value). -/
def pyStr : PyVal → String
  | .str s => s
  | v => pyRepr v

/-- Python `d.get(k, dflt)`: on a dict, the value under `k` or the default;
on anything else, an `AttributeError` (`.get` does not exist). -/
def PyVal.getD (v : PyVal) (k : String) (dflt : PyVal) : Except PyErr PyVal :=
  match v with
  | .dict fs => .ok ((fs.lookup k).getD dflt)
  | _ => .error (.attributeError ("object has no attribute get: " ++ k))

/-- Python `s.strip()` on a string: drop whitespace from both ends. -/
def stripStr (s : String) : String :=
  String.mk
    (((s.data.dropWhile Char.isWhitespace).reverse.dropWhile
        Char.isWhitespace).reverse)

/-- Python `v.strip()`: defined on strings only, `AttributeError` otherwise. -/
def pyStrip : PyVal → Except PyErr String
  | .str s => .ok (stripStr s)
  | _ => .error (.attributeError "object has no attribute strip")

/-- `(data.get(k) or "").strip()` — the request-field extraction used by
`api_search` for `category`, `location` and `pageToken`. -/
def pyFieldStrip (data : PyVal) (k : String) : Except PyErr String := do
  let v ← data.getD k .none
  pyStrip (if v.truthy then v else .str "")

/-- `request.get_json(silent=True) or {}`: a `Option.none` parse result (absent or
invalid JSON body) and any falsy body both collapse to the empty dict. -/
def jsonOrEmpty : Option PyVal → PyVal
  | Option.none => .dict []
  | some v => if v.truthy then v else .dict []

/-- The query parameters of one call to the Places Text Search endpoint:
`params = {"key": API_KEY}` plus either `query` or `pagetoken`. -/
structure SearchParams where
  key : Option String
  query : Option String
  pagetoken : Option String

/-- One outbound HTTP call attempted by the app: a text-search call with its
parameters, or a place-details call for one place id. -/
inductive OutCall where
  | search : SearchParams → OutCall
  | details : PyVal → OutCall

/-- The upstream provider, as an oracle: each outbound call either yields the
parsed JSON body (`r.json()`) or raises. -/
structure Upstream where
  search : SearchParams → Except PyErr PyVal
  details : PyVal → Except PyErr PyVal

/-- The `Lead` dataclass of `app.py`.  Python does not enforce the annotated
field types, so fields hold whatever the upstream JSON held. -/
structure Lead where
  name : PyVal
  address : PyVal
  rating : PyVal
  reviewCount : PyVal
  phone : PyVal
  website : PyVal
  placeId : PyVal
  lat : PyVal
  lng : PyVal

/-- The list comprehension of `google_text_search_once`:
`[it.get("place_id") for it in results if it.get("place_id")]` over the
elements of a Python list.  A non-dict element raises `AttributeError`. -/
def placeIdsOf : List PyVal → Except PyErr (List PyVal)
  | [] => .ok []
  | it :: rest => do
      let pid ← it.getD "place_id" .none
      let tail ← placeIdsOf rest
      if pid.truthy then pure (pid :: tail) else pure tail

/-- `data.get("results", [])` followed by the comprehension above.  When the
`results` value is not a list, Python iteration either yields strings (keys of
a dict, characters of a string) whose `.get` raises `AttributeError`, or
raises `TypeError` for non-iterables; empty iterables yield `[]`. -/
def extractPlaceIds (data : PyVal) : Except PyErr (List PyVal) := do
  let resultsVal ← data.getD "results" (.list [])
  match resultsVal with
  | .list its => placeIdsOf its
  | .str s =>
      if s == "" then pure []
      else .error (.attributeError "object has no attribute get: place_id")
  | .dict fs =>
      if fs.isEmpty then pure []
      else .error (.attributeError "object has no attribute get: place_id")
  | _ => .error (.typeError "object is not iterable")

/-- The parameter-building prelude of `google_text_search_once`:
`params = {"key": API_KEY}` plus `pagetoken` when that argument is truthy,
`query` otherwise. -/
def textSearchParams (apiKey : Option String) (query : String)
    (pagetoken : Option String) : SearchParams :=
  let useTok : Bool := match pagetoken with
    | some t => !(t == "")
    | Option.none => false
  { key := apiKey
    query := if useTok then Option.none else some query
    pagetoken := if useTok then pagetoken else Option.none }

/-- `google_text_search_once(query, pagetoken)` of `app.py`: builds the
parameters above, issues one GET to the text-search endpoint, and extracts
`(place_ids, next_page_token)` from the JSON body.  Returns the result (or the
raised exception) together with the outbound call actually attempted. -/
def google_text_search_once (apiKey : Option String) (up : Upstream)
    (query : String) (pagetoken : Option String) :
    Except PyErr (List PyVal × PyVal) × List OutCall :=
  let params : SearchParams := textSearchParams apiKey query pagetoken
  match up.search params with
  | .error e => (.error e, [.search params])
  | .ok data =>
      let parsed : Except PyErr (List PyVal × PyVal) := do
        let place_ids ← extractPlaceIds data
        let next_token ← data.getD "next_page_token" .none
        pure (place_ids, next_token)
      (parsed, [.search params])

/-- `google_place_details(place_id)` of `app.py`: one GET to the details
endpoint, then `dj.get("result")`; a falsy result yields `None` (the caller
skips it), otherwise a `Lead` is built field by field with `.get` defaults,
the coordinates coming from `(p.get("geometry") or {}).get("location", {})`. -/
def google_place_details (up : Upstream) (place_id : PyVal) :
    Except PyErr (Option Lead) := do
  let dj ← up.details place_id
  let p ← dj.getD "result" .none
  if !p.truthy then
    pure Option.none
  else do
    let name ← p.getD "name" (.str "")
    let address ← p.getD "formatted_address" (.str "")
    let rating ← p.getD "rating" .none
    let reviewCount ← p.getD "user_ratings_total" .none
    let phone ← p.getD "international_phone_number" .none
    let website ← p.getD "website" .none
    let placeId ← p.getD "place_id" (.str "")
    let geometry ← p.getD "geometry" .none
    let location ← (if geometry.truthy then geometry else .dict []).getD
        "location" (.dict [])
    let lat ← location.getD "lat" .none
    let lng ← location.getD "lng" .none
    pure (some { name := name, address := address, rating := rating,
                 reviewCount := reviewCount, phone := phone,
                 website := website, placeId := placeId,
                 lat := lat, lng := lng })

/-- The details-fetch loop of `api_search`: for each place id in order, one
details call; truthy (non-`None`) leads are appended, `None` results are
skipped; the first raised exception aborts the loop.  The second component is
the trace of details calls attempted. -/
def detailsLoop (up : Upstream) : List PyVal → Except PyErr (List Lead) × List OutCall
  | [] => (.ok [], [])
  | pid :: rest =>
      match google_place_details up pid with
      | .error e => (.error e, [.details pid])
      | .ok Option.none =>
          let (r, t) := detailsLoop up rest
          (r, .details pid :: t)
      | .ok (some lead) =>
          let (r, t) := detailsLoop up rest
          (r.map (fun ls => lead :: ls), .details pid :: t)

/-- The response of POST /api/search: 400 invalid-request JSON, 200 success
JSON, 502 (`except requests.HTTPError`), 500 (`except Exception`), or an
exception raised outside the handler try-block (Flask turns it into a plain
500 with no JSON error body). -/
inductive SearchResult where
  | invalid : String → SearchResult
  | ok : List Lead → PyVal → SearchResult
  | httpError : String → SearchResult
  | internalError : String → SearchResult
  | exn : PyErr → SearchResult

/-- The two `except` clauses of `api_search`: `requests.HTTPError` maps to 502
with message `f"HTTP error: {e}"`, any other exception to 500 with `str(e)`. -/
def searchErrorResult (e : PyErr) : SearchResult :=
  if e.isRequestsHTTPError then .httpError ("HTTP error: " ++ e.msg)
  else .internalError e.msg

/-- Lines 98–120 of `api_search`: validation against the already-stripped
`category`, `location` and `page_token`, then the try-block — one text-search
call, the details loop, and the success JSON — with the two `except`
clauses. -/
def api_search_go (apiKey : Option String) (up : Upstream)
    (category location : String) (page_token : Option String) :
    SearchResult × List OutCall :=
  if (category == "" || location == "") && page_token.isNone then
    (.invalid "category and location are required", [])
  else
    let query := category ++ " in " ++ location
    match google_text_search_once apiKey up query page_token with
    | (.error e, t1) => (searchErrorResult e, t1)
    | (.ok (place_ids, next_token), t1) =>
        match detailsLoop up place_ids with
        | (.error e, t2) => (searchErrorResult e, t1 ++ t2)
        | (.ok leads, t2) =>
            (.ok leads (if next_token.truthy then next_token else .str ""),
             t1 ++ t2)

/-- The `/api/search` handler.  `body` is the JSON parse of the request body
(`Option.none` when absent or invalid).  Lines 93–96 extract and strip the three
request fields (an exception there escapes the handler); `"".strip() or None`
turns a whitespace-only token into `None`.  Returns the HTTP outcome and the
trace of outbound calls attempted, in order. -/
def api_search (apiKey : Option String) (up : Upstream) (body : Option PyVal) :
    SearchResult × List OutCall :=
  let data := jsonOrEmpty body
  let fields : Except PyErr (String × String × String) := do
    let category ← pyFieldStrip data "category"
    let location ← pyFieldStrip data "location"
    let tokenStr ← pyFieldStrip data "pageToken"
    pure (category, location, tokenStr)
  match fields with
  | .error e => (.exn e, [])
  | .ok (category, location, tokenStr) =>
      api_search_go apiKey up category location
        (if tokenStr == "" then Option.none else some tokenStr)

/-- The nine CSV header cells of `api_export_csv`, in their fixed order. -/
def csvHeaders : List String :=
  ["Name", "Address", "Rating", "Review Count", "Phone", "Website",
   "Place ID", "Latitude", "Longitude"]

/-- One CSV cell: `l.get(field, "") or ""` then `csv.writer` rendering — the
looked-up value when truthy (via `str()`), the empty string otherwise. -/
def csvCell (v : PyVal) : String :=
  if v.truthy then pyStr v else ""

/-- One data row of the export: the nine `l.get(..., "") or ""` cells in
column order.  A non-dict record raises `AttributeError` at the first
`.get`. -/
def rowOf (l : PyVal) : Except PyErr (List String) := do
  let name ← l.getD "name" (.str "")
  let address ← l.getD "address" (.str "")
  let rating ← l.getD "rating" (.str "")
  let reviewCount ← l.getD "reviewCount" (.str "")
  let phone ← l.getD "phone" (.str "")
  let website ← l.getD "website" (.str "")
  let placeId ← l.getD "placeId" (.str "")
  let lat ← l.getD "lat" (.str "")
  let lng ← l.getD "lng" (.str "")
  pure [csvCell name, csvCell address, csvCell rating, csvCell reviewCount,
        csvCell phone, csvCell website, csvCell placeId, csvCell lat,
        csvCell lng]

/-- The response of POST /api/export: 400 invalid-request JSON, a complete CSV
document (header row plus data rows, as lists of logical cells), or an
uncaught exception (Flask 500, no CSV produced). -/
inductive ExportResult where
  | invalid : String → ExportResult
  | csvDoc : List (List String) → ExportResult
  | exn : PyErr → ExportResult

/-- The `for l in leads` loop of `api_export_csv`: one row per record, in
input order; the first raised exception aborts the whole request. -/
def rowsOf : List PyVal → Except PyErr (List (List String))
  | [] => .ok []
  | l :: rest => do
      let r ← rowOf l
      let rs ← rowsOf rest
      pure (r :: rs)

/-- Lines 127–165 of `api_export_csv`, applied to the extracted `leads`
value: the `isinstance(leads, list)` check (400 `"No leads provided"` for any
non-list), then the header row and the data rows. -/
def exportLeads (leadsVal : PyVal) : ExportResult :=
  match leadsVal with
  | .list leads =>
      match rowsOf leads with
      | .error e => .exn e
      | .ok rows => .csvDoc (csvHeaders :: rows)
  | _ => .invalid "No leads provided"

/-- The `/api/export` handler: parse body (or `{}`), take `data.get("leads")`,
reject non-lists with 400 `"No leads provided"`, otherwise emit the header row
followed by one row per record in input order. -/
def api_export_csv (body : Option PyVal) : ExportResult :=
  let data := jsonOrEmpty body
  match data.getD "leads" .none with
  | .error e => .exn e
  | .ok leadsVal => exportLeads leadsVal

/-! ## Shared definitions for the theorems -/

/-- `v` has one of the shapes the `(v or "").strip()` idiom of `api_search`
tolerates: a string, or a falsy value that `or ""` replaces by `""`.  A truthy
non-string there raises `AttributeError` instead. -/
def strLike : PyVal → Bool
  | .str _ => true
  | v => !v.truthy

/-- The string `(v or "")` evaluates to on a string-like value. -/
def effStr : PyVal → String
  | .str s => s
  | _ => ""

/-- The details-lookup outcome `api_search` keeps for one place id: the lead
when the call returned one, nothing when it returned `None`. -/
def detOpt (up : Upstream) (pid : PyVal) : Option Lead :=
  match google_place_details up pid with
  | .ok (some l) => some l
  | _ => Option.none

/-- The text-search calls recorded in an outbound-call trace. -/
def searchCallsOf (t : List OutCall) : List SearchParams :=
  t.filterMap fun c =>
    match c with
    | .search p => some p
    | .details _ => Option.none

/-- The nine field names `api_export_csv` reads from each record, in column
order. -/
def exportFields : List String :=
  ["name", "address", "rating", "reviewCount", "phone", "website", "placeId",
   "lat", "lng"]

/-- The data row `api_export_csv` emits for the mapping `fs`. -/
def exportRow (fs : List (String × PyVal)) : List String :=
  exportFields.map fun k => csvCell ((fs.lookup k).getD (.str ""))

/-- The request body `{"leads": ls}`. -/
def mkLeadsBody (ls : List PyVal) : Option PyVal :=
  some (.dict [("leads", .list ls)])

/-- A fresh-search request body `{"category": c, "location": l}`. -/
def mkSearchBody (c l : String) : Option PyVal :=
  some (.dict [("category", .str c), ("location", .str l)])

/-! ## Concrete fixtures -/

/-- An upstream whose search call raises `requests.Timeout`. -/
def timeoutUp : Upstream :=
  { search := fun _ => .error (.timeout "Read timed out."),
    details := fun _ => .error (.timeout "Read timed out.") }

/-- An upstream whose calls raise `requests.ConnectionError`. -/
def connUp : Upstream :=
  { search := fun _ => .error (.connectionError "Connection refused"),
    details := fun _ => .error (.connectionError "Connection refused") }

/-- A search response with three result identifiers and a next-page token. -/
def scenData : PyVal := .dict
  [("results", .list
      [.dict [("place_id", .str "id1")],
       .dict [("place_id", .str "id2")],
       .dict [("place_id", .str "id3")]]),
   ("next_page_token", .str "tok-2")]

/-- An upstream returning `scenData` for search; details succeed for every id
except `id2`, whose body has no `result` field ("not found"). -/
def scenUp : Upstream :=
  { search := fun _ => .ok scenData,
    details := fun pid =>
      match pid with
      | .str "id2" => .ok (.dict [("status", .str "NOT_FOUND")])
      | p => .ok (.dict [("result",
          .dict [("name", .str "B"), ("place_id", p)])]) }

/-- The identifiers extracted from `scenData`. -/
def scenIds : List PyVal := [.str "id1", .str "id2", .str "id3"]

/-- The lead `scenUp` yields for a found place id. -/
def scenLead (pid : PyVal) : Lead :=
  { name := .str "B", address := .str "", rating := .none,
    reviewCount := .none, phone := .none, website := .none,
    placeId := pid, lat := .none, lng := .none }

/-- The details-call trace for `scenIds`. -/
def scenTrace : List OutCall :=
  [.details (.str "id1"), .details (.str "id2"), .details (.str "id3")]

/-- An upstream with two result identifiers whose second details call raises a
connection error after the first has already resolved to a lead. -/
def c6Up : Upstream :=
  { search := fun _ => .ok (.dict
      [("results", .list
          [.dict [("place_id", .str "idA")],
           .dict [("place_id", .str "idB")]])]),
    details := fun pid =>
      match pid with
      | .str "idB" => .error (.connectionError "Connection reset")
      | p => .ok (.dict [("result",
          .dict [("name", .str "A"), ("place_id", p)])]) }

/-- An export record with all nine fields present; `reviewCount` holds the
populated (non-null) value `0`. -/
def cexRecord : PyVal := .dict
  [("name", .str "Cafe A"), ("address", .str "1 Main St"),
   ("rating", .int 5), ("reviewCount", .int 0),
   ("phone", .str "+49 30 1234"), ("website", .str "http://a.example"),
   ("placeId", .str "pid-1"), ("lat", .int 52), ("lng", .int 13)]

/-- The request body `{"category": cv, "location": lv, "pageToken": tv}`. -/
def mkFullBody (cv lv tv : PyVal) : Option PyVal :=
  some (.dict [("category", cv), ("location", lv), ("pageToken", tv)])

/-! ## Helper lemmas -/

theorem except_ok_bind {α β : Type} (a : α) (f : α → Except PyErr β) :
    (Except.ok a >>= f) = f a := rfl

theorem stripStr_empty : stripStr "" = "" := rfl

theorem pyFieldStrip_some (fs : List (String × PyVal)) (k : String) (v : PyVal)
    (hl : fs.lookup k = some v) (hs : strLike v = true) :
    pyFieldStrip (.dict fs) k = .ok (stripStr (effStr v)) := by
  simp only [pyFieldStrip, PyVal.getD, hl]
  cases v with
  | str s =>
      by_cases h : s = ""
      · subst h; rfl
      · simp [PyVal.truthy, pyStrip, effStr, h, except_ok_bind]
  | none => rfl
  | bool b => cases b with
      | false => rfl
      | true => simp [strLike, PyVal.truthy] at hs
  | int n =>
      have h : n = 0 := by
        by_contra h
        simp [strLike, PyVal.truthy, h] at hs
      subst h; rfl
  | list xs => cases xs with
      | nil => rfl
      | cons x xs => simp [strLike, PyVal.truthy] at hs
  | dict gs => cases gs with
      | nil => rfl
      | cons g gs => simp [strLike, PyVal.truthy] at hs

theorem pyFieldStrip_absent (fs : List (String × PyVal)) (k : String)
    (hl : fs.lookup k = Option.none) :
    pyFieldStrip (.dict fs) k = .ok "" := by
  simp only [pyFieldStrip, PyVal.getD, hl]
  rfl

theorem detailsLoop_fst_ok (up : Upstream) (pids : List PyVal)
    (leads : List Lead) (t : List OutCall)
    (h : detailsLoop up pids = (.ok leads, t)) :
    leads = pids.filterMap (detOpt up) := by
  induction pids generalizing leads t with
  | nil =>
      simp only [detailsLoop] at h
      cases h
      rfl
  | cons pid rest ih =>
      simp only [detailsLoop] at h
      rcases hd : google_place_details up pid with e | ol
      · rw [hd] at h
        cases h
      · rw [hd] at h
        cases ol with
        | none =>
            rcases hrest : detailsLoop up rest with ⟨r, t2⟩
            rw [hrest] at h
            cases r with
            | error e => cases h
            | ok ls =>
                cases h
                simp only [List.filterMap_cons, detOpt, hd]
                exact ih _ _ hrest
        | some lead =>
            rcases hrest : detailsLoop up rest with ⟨r, t2⟩
            rw [hrest] at h
            cases r with
            | error e => cases h
            | ok ls =>
                simp only [Except.map] at h
                cases h
                simp only [List.filterMap_cons, detOpt, hd]
                rw [ih _ _ hrest]

theorem detailsLoop_fst_error (up : Upstream) (pids : List PyVal) (pid : PyVal)
    (e : PyErr) (hmem : pid ∈ pids)
    (hfail : google_place_details up pid = .error e) :
    ∃ e2, (detailsLoop up pids).1 = .error e2 := by
  induction pids with
  | nil => cases hmem
  | cons q rest ih =>
      simp only [detailsLoop]
      rcases hd : google_place_details up q with e1 | ol
      · exact ⟨e1, rfl⟩
      · rcases List.mem_cons.mp hmem with hq | hq
        · subst hq
          rw [hd] at hfail
          cases hfail
        · rcases ih hq with ⟨e2, h2⟩
          rcases hrest : detailsLoop up rest with ⟨r, t2⟩
          rw [hrest] at h2
          simp only at h2
          subst h2
          cases ol with
          | none => exact ⟨e2, rfl⟩
          | some lead => exact ⟨e2, rfl⟩

theorem detailsLoop_snd_searchCalls (up : Upstream) (pids : List PyVal) :
    searchCallsOf (detailsLoop up pids).2 = [] := by
  induction pids with
  | nil => rfl
  | cons pid rest ih =>
      simp only [detailsLoop]
      rcases hd : google_place_details up pid with e | ol
      · rfl
      · cases ol with
        | none =>
            rcases hrest : detailsLoop up rest with ⟨r, t2⟩
            rw [hrest] at ih
            simpa [searchCallsOf] using ih
        | some lead =>
            rcases hrest : detailsLoop up rest with ⟨r, t2⟩
            rw [hrest] at ih
            simpa [searchCallsOf] using ih

theorem gts_snd (apiKey : Option String) (up : Upstream) (q : String)
    (pt : Option String) :
    (google_text_search_once apiKey up q pt).2 =
      [.search (textSearchParams apiKey q pt)] := by
  simp only [google_text_search_once]
  rcases up.search (textSearchParams apiKey q pt) with e | data
  · rfl
  · rfl

theorem gts_ok (apiKey : Option String) (up : Upstream) (q : String)
    (pt : Option String) (data : PyVal) (ids : List PyVal) (ntok : PyVal)
    (h1 : up.search (textSearchParams apiKey q pt) = .ok data)
    (h2 : extractPlaceIds data = .ok ids)
    (h3 : data.getD "next_page_token" .none = .ok ntok) :
    google_text_search_once apiKey up q pt =
      (.ok (ids, ntok), [.search (textSearchParams apiKey q pt)]) := by
  simp only [google_text_search_once, h1, h2, h3, except_ok_bind]
  rfl

theorem gts_error (apiKey : Option String) (up : Upstream) (q : String)
    (pt : Option String) (e : PyErr)
    (h1 : up.search (textSearchParams apiKey q pt) = .error e) :
    google_text_search_once apiKey up q pt =
      (.error e, [.search (textSearchParams apiKey q pt)]) := by
  simp only [google_text_search_once, h1]

theorem api_search_eq_go (apiKey : Option String) (up : Upstream)
    (body : Option PyVal) (c l t : String)
    (hc : pyFieldStrip (jsonOrEmpty body) "category" = .ok c)
    (hl : pyFieldStrip (jsonOrEmpty body) "location" = .ok l)
    (ht : pyFieldStrip (jsonOrEmpty body) "pageToken" = .ok t) :
    api_search apiKey up body =
      api_search_go apiKey up c l
        (if t == "" then Option.none else some t) := by
  simp only [api_search, hc, hl, ht, except_ok_bind]
  rfl

theorem api_search_go_invalid (apiKey : Option String) (up : Upstream)
    (c l : String) (pt : Option String)
    (h : ((c == "" || l == "") && pt.isNone) = true) :
    api_search_go apiKey up c l pt =
      (.invalid "category and location are required", []) := by
  simp only [api_search_go, h]
  rfl

theorem gts_eta (apiKey : Option String) (up : Upstream) (q : String)
    (pt : Option String) :
    google_text_search_once apiKey up q pt =
      ((google_text_search_once apiKey up q pt).1,
       [.search (textSearchParams apiKey q pt)]) := by
  conv_lhs => rw [← Prod.mk.eta (p := google_text_search_once apiKey up q pt)]
  rw [gts_snd]

theorem api_search_go_calls (apiKey : Option String) (up : Upstream)
    (c l : String) (pt : Option String)
    (h : ((c == "" || l == "") && pt.isNone) = false) :
    ∃ rest, (api_search_go apiKey up c l pt).2 =
      .search (textSearchParams apiKey (c ++ " in " ++ l) pt) :: rest := by
  simp only [api_search_go, h, Bool.false_eq_true, if_false]
  split
  · rename_i e t1 heq
    have hs := gts_snd apiKey up (c ++ " in " ++ l) pt
    rw [heq] at hs
    simp only at hs
    subst hs
    exact ⟨[], rfl⟩
  · rename_i pr t1 place_ids next_token heq
    have hs := gts_snd apiKey up (c ++ " in " ++ l) pt
    rw [heq] at hs
    simp only at hs
    subst hs
    split
    · rename_i e t2 heq2
      exact ⟨t2, rfl⟩
    · rename_i leads t2 heq2
      exact ⟨t2, rfl⟩

theorem api_search_go_searchCalls (apiKey : Option String) (up : Upstream)
    (c l : String) (pt : Option String)
    (h : ((c == "" || l == "") && pt.isNone) = false) :
    searchCallsOf (api_search_go apiKey up c l pt).2 =
      [textSearchParams apiKey (c ++ " in " ++ l) pt] := by
  simp only [api_search_go, h, Bool.false_eq_true, if_false]
  split
  · rename_i e t1 heq
    have hs := gts_snd apiKey up (c ++ " in " ++ l) pt
    rw [heq] at hs
    simp only at hs
    subst hs
    rfl
  · rename_i x place_ids next_token t1 heq
    have hs := gts_snd apiKey up (c ++ " in " ++ l) pt
    rw [heq] at hs
    simp only at hs
    subst hs
    split
    · rename_i e t2 heq2
      have hnos := detailsLoop_snd_searchCalls up place_ids
      rw [heq2] at hnos
      simp only at hnos
      simpa [searchCallsOf, List.filterMap_cons, List.filterMap_append]
        using hnos
    · rename_i leads t2 heq2
      have hnos := detailsLoop_snd_searchCalls up place_ids
      rw [heq2] at hnos
      simp only at hnos
      simpa [searchCallsOf, List.filterMap_cons, List.filterMap_append]
        using hnos

theorem rowOf_dict (fs : List (String × PyVal)) :
    rowOf (.dict fs) = .ok (exportRow fs) := rfl

theorem rowOf_not_dict (v : PyVal) (h : v.isDict = false) :
    ∃ m, rowOf v = .error (.attributeError m) := by
  cases v with
  | dict fs => simp [PyVal.isDict] at h
  | none => exact ⟨"object has no attribute get: name", rfl⟩
  | bool b => exact ⟨"object has no attribute get: name", rfl⟩
  | int n => exact ⟨"object has no attribute get: name", rfl⟩
  | str s => exact ⟨"object has no attribute get: name", rfl⟩
  | list xs => exact ⟨"object has no attribute get: name", rfl⟩

theorem rowsOf_ok_length (ls : List PyVal) (rows : List (List String))
    (h : rowsOf ls = .ok rows) : rows.length = ls.length := by
  induction ls generalizing rows with
  | nil =>
      simp only [rowsOf] at h
      cases h
      rfl
  | cons l rest ih =>
      simp only [rowsOf] at h
      rcases hr : rowOf l with e | r
      · rw [hr] at h
        cases h
      · rw [hr, except_ok_bind] at h
        rcases hrest : rowsOf rest with e | rs
        · rw [hrest] at h
          cases h
        · rw [hrest, except_ok_bind] at h
          cases h
          simp [ih rs hrest]

theorem rowsOf_error_of_mem (ls : List PyVal) (x : PyVal) (hmem : x ∈ ls)
    (hx : x.isDict = false) : ∃ e, rowsOf ls = .error e := by
  induction ls with
  | nil => cases hmem
  | cons l rest ih =>
      simp only [rowsOf]
      rcases hr : rowOf l with e | r
      · exact ⟨e, rfl⟩
      · rcases List.mem_cons.mp hmem with hq | hq
        · subst hq
          rcases rowOf_not_dict x hx with ⟨m, hm⟩
          rw [hm] at hr
          cases hr
        · rcases ih hq with ⟨e2, h2⟩
          rw [except_ok_bind, h2]
          exact ⟨e2, rfl⟩

theorem api_search_go_ok (apiKey : Option String) (up : Upstream)
    (c l : String) (pt : Option String) (data : PyVal) (ids : List PyVal)
    (ntok : PyVal) (leads : List Lead) (t2 : List OutCall)
    (hcond : ((c == "" || l == "") && pt.isNone) = false)
    (hs : up.search (textSearchParams apiKey (c ++ " in " ++ l) pt) = .ok data)
    (hx : extractPlaceIds data = .ok ids)
    (hn : data.getD "next_page_token" .none = .ok ntok)
    (hdl : detailsLoop up ids = (.ok leads, t2)) :
    api_search_go apiKey up c l pt =
      (.ok leads (if ntok.truthy then ntok else .str ""),
       .search (textSearchParams apiKey (c ++ " in " ++ l) pt) :: t2) := by
  simp only [api_search_go, hcond, Bool.false_eq_true, if_false]
  rw [gts_ok apiKey up (c ++ " in " ++ l) pt data ids ntok hs hx hn]
  simp only []
  rw [hdl]
  rfl

theorem api_search_go_search_error (apiKey : Option String) (up : Upstream)
    (c l : String) (pt : Option String) (e : PyErr)
    (hcond : ((c == "" || l == "") && pt.isNone) = false)
    (hs : up.search (textSearchParams apiKey (c ++ " in " ++ l) pt)
        = .error e) :
    api_search_go apiKey up c l pt =
      (searchErrorResult e,
       [.search (textSearchParams apiKey (c ++ " in " ++ l) pt)]) := by
  simp only [api_search_go, hcond, Bool.false_eq_true, if_false]
  rw [gts_error apiKey up (c ++ " in " ++ l) pt e hs]

theorem api_search_go_details_error (apiKey : Option String) (up : Upstream)
    (c l : String) (pt : Option String) (data : PyVal) (ids : List PyVal)
    (ntok : PyVal) (e : PyErr) (t2 : List OutCall)
    (hcond : ((c == "" || l == "") && pt.isNone) = false)
    (hs : up.search (textSearchParams apiKey (c ++ " in " ++ l) pt) = .ok data)
    (hx : extractPlaceIds data = .ok ids)
    (hn : data.getD "next_page_token" .none = .ok ntok)
    (hdl : detailsLoop up ids = (.error e, t2)) :
    api_search_go apiKey up c l pt =
      (searchErrorResult e,
       .search (textSearchParams apiKey (c ++ " in " ++ l) pt) :: t2) := by
  simp only [api_search_go, hcond, Bool.false_eq_true, if_false]
  rw [gts_ok apiKey up (c ++ " in " ++ l) pt data ids ntok hs hx hn]
  simp only []
  rw [hdl]
  rfl

theorem export_dict_reduce (fs : List (String × PyVal)) :
    api_export_csv (some (.dict fs)) =
      exportLeads ((fs.lookup "leads").getD .none) := by
  cases fs with
  | nil => rfl
  | cons p rest => rfl

theorem api_search_freshBody (apiKey : Option String) (up : Upstream)
    (cat loc : String) :
    api_search apiKey up (mkSearchBody cat loc) =
      api_search_go apiKey up (stripStr cat) (stripStr loc) Option.none := by
  have hcat : pyFieldStrip (jsonOrEmpty (mkSearchBody cat loc)) "category"
      = .ok (stripStr cat) :=
    pyFieldStrip_some [("category", .str cat), ("location", .str loc)]
      "category" (.str cat) rfl rfl
  have hloc : pyFieldStrip (jsonOrEmpty (mkSearchBody cat loc)) "location"
      = .ok (stripStr loc) :=
    pyFieldStrip_some [("category", .str cat), ("location", .str loc)]
      "location" (.str loc) rfl rfl
  have htok : pyFieldStrip (jsonOrEmpty (mkSearchBody cat loc)) "pageToken"
      = .ok "" :=
    pyFieldStrip_absent [("category", .str cat), ("location", .str loc)]
      "pageToken" rfl
  rw [api_search_eq_go apiKey up (mkSearchBody cat loc)
      (stripStr cat) (stripStr loc) "" hcat hloc htok]
  rfl

theorem api_search_fullBody (apiKey : Option String) (up : Upstream)
    (cv lv tv : PyVal) (h1 : strLike cv = true) (h2 : strLike lv = true)
    (h3 : strLike tv = true) :
    api_search apiKey up (mkFullBody cv lv tv) =
      api_search_go apiKey up (stripStr (effStr cv)) (stripStr (effStr lv))
        (if stripStr (effStr tv) == "" then Option.none
         else some (stripStr (effStr tv))) := by
  have hcat : pyFieldStrip (jsonOrEmpty (mkFullBody cv lv tv)) "category"
      = .ok (stripStr (effStr cv)) :=
    pyFieldStrip_some [("category", cv), ("location", lv), ("pageToken", tv)]
      "category" cv rfl h1
  have hloc : pyFieldStrip (jsonOrEmpty (mkFullBody cv lv tv)) "location"
      = .ok (stripStr (effStr lv)) :=
    pyFieldStrip_some [("category", cv), ("location", lv), ("pageToken", tv)]
      "location" lv rfl h2
  have htok : pyFieldStrip (jsonOrEmpty (mkFullBody cv lv tv)) "pageToken"
      = .ok (stripStr (effStr tv)) :=
    pyFieldStrip_some [("category", cv), ("location", lv), ("pageToken", tv)]
      "pageToken" tv rfl h3
  rw [api_search_eq_go apiKey up (mkFullBody cv lv tv)
      (stripStr (effStr cv)) (stripStr (effStr lv)) (stripStr (effStr tv))
      hcat hloc htok]

/-! ## Claim theorems -/

/-- C10: a request whose body is absent or fails JSON parsing
(`request.get_json(silent=True)` returns `None`) is handled as the empty
object, and both handlers answer with their HTTP 400 `InvalidRequest`
response instead of failing on parsing: `/api/search` with
`"category and location are required"` and zero outbound calls,
`/api/export` with `"No leads provided"`. -/
theorem invalid_body_treated_as_empty :
    (∀ (apiKey : Option String) (up : Upstream),
        api_search apiKey up Option.none =
          (.invalid "category and location are required", [])) ∧
    api_export_csv Option.none = .invalid "No leads provided" :=
  ⟨fun _ _ => rfl, rfl⟩

/-- C7: `exportCsv` on the empty list yields exactly the header row and no
data rows; whenever the row loop succeeds it emits the header followed by
exactly one row per input record, in input order; and every mapping record —
whatever fields it lacks, `placeId` included — yields a row
(`rowOf` never fails on a dict). -/
theorem exportCsv_rows :
    api_export_csv (mkLeadsBody []) = .csvDoc [csvHeaders] ∧
    (∀ ls rows, rowsOf ls = .ok rows →
        api_export_csv (mkLeadsBody ls) = .csvDoc (csvHeaders :: rows) ∧
        rows.length = ls.length) ∧
    (∀ fs, rowOf (.dict fs) = .ok (exportRow fs)) := by
  refine ⟨rfl, ?_, rowOf_dict⟩
  intro ls rows h
  constructor
  · have hred : api_export_csv (mkLeadsBody ls) = exportLeads (.list ls) := rfl
    rw [hred]
    simp only [exportLeads]
    rw [h]
  · exact rowsOf_ok_length ls rows h

/-- Witness for C7: a singleton list whose record lacks `placeId` (and every
other field but `name`) still produces exactly one data row, after the
header. -/
theorem exportCsv_rows_witness :
    api_export_csv (mkLeadsBody [.dict [("name", .str "X")]]) =
      .csvDoc [csvHeaders, exportRow [("name", .str "X")]] ∧
    [exportRow [("name", .str "X")]].length =
      [PyVal.dict [("name", .str "X")]].length :=
  exportCsv_rows.2.1 [.dict [("name", .str "X")]]
    [exportRow [("name", .str "X")]] rfl

/-- C8: when the `leads` value of the request body is present but not a list,
or the `leads` field is missing entirely, `/api/export` answers
HTTP 400 `"No leads provided"` — an `ExportResult.invalid`, which carries no
CSV rows at all. -/
theorem exportCsv_non_list_invalid :
    (∀ fs v, fs.lookup "leads" = some v → v.isList = false →
        api_export_csv (some (.dict fs)) = .invalid "No leads provided") ∧
    (∀ fs : List (String × PyVal), fs.lookup "leads" = Option.none →
        api_export_csv (some (.dict fs)) = .invalid "No leads provided") := by
  constructor
  · intro fs v hl hv
    rw [export_dict_reduce, hl]
    cases v with
    | list xs => simp [PyVal.isList] at hv
    | none => rfl
    | bool b => rfl
    | int n => rfl
    | str s => rfl
    | dict gs => rfl
  · intro fs hl
    rw [export_dict_reduce, hl]
    rfl

/-- Witness for C8: a null `leads` value and a body without a `leads` field
both get the 400 response. -/
theorem exportCsv_non_list_invalid_witness :
    api_export_csv (some (.dict [("leads", .none)])) =
      .invalid "No leads provided" ∧
    api_export_csv (some (.dict [("count", .int 3)])) =
      .invalid "No leads provided" :=
  ⟨exportCsv_non_list_invalid.1 [("leads", .none)] .none rfl rfl,
   exportCsv_non_list_invalid.2 [("count", .int 3)] rfl⟩

/-- C9: a list submitted to `/api/export` containing a non-mapping element
makes the row-building `.get` raise, so the request ends in an uncaught
exception and no CSV document is returned. -/
theorem exportCsv_non_mapping_exn (ls : List PyVal) (x : PyVal)
    (hmem : x ∈ ls) (hx : x.isDict = false) :
    ∃ e, api_export_csv (mkLeadsBody ls) = .exn e := by
  rcases rowsOf_error_of_mem ls x hmem hx with ⟨e, he⟩
  refine ⟨e, ?_⟩
  have hred : api_export_csv (mkLeadsBody ls) = exportLeads (.list ls) := rfl
  rw [hred]
  simp only [exportLeads]
  rw [he]

/-- Witness for C9: a list holding the bare string `"bob"` raises. -/
theorem exportCsv_non_mapping_exn_witness :
    ∃ e, api_export_csv (mkLeadsBody [.str "bob"]) = .exn e :=
  exportCsv_non_mapping_exn [.str "bob"] (.str "bob")
    (List.mem_cons_self _ _) rfl

/-- C2 counterexample: a record with all nine fields populated, whose
`reviewCount` is the non-null value `0`.  The claim says its cell must equal
the field value (`str(0) = "0"`), but the emitted Review Count cell is the
empty string: the `or ""` coercion erases every falsy value, not only missing
and null ones. -/
theorem exportCsv_populated_zero_cex :
    api_export_csv (mkLeadsBody [cexRecord]) =
      .csvDoc [csvHeaders,
        ["Cafe A", "1 Main St", "5", "", "+49 30 1234", "http://a.example",
         "pid-1", "52", "13"]] ∧
    pyStr (.int 0) = "0" ∧ ("" : String) ≠ "0" := by
  refine ⟨rfl, rfl, ?_⟩
  decide

/-- C2 (amended): each cell of a record's data row is the textual form of the
field's value when that value is truthy and the empty string otherwise; so a
record whose nine fields all hold truthy values round-trips exactly, while
missing, null and other falsy values (zero, `False`) all render as the empty
cell — never the literal word `"null"`/`"None"` and never a `0` standing for
a missing value. -/
theorem exportCsv_cell_rendering :
    (∀ fs, api_export_csv (mkLeadsBody [.dict fs]) =
        .csvDoc [csvHeaders, exportRow fs]) ∧
    (∀ fs, exportRow fs =
        exportFields.map fun k => csvCell ((fs.lookup k).getD (.str ""))) ∧
    (∀ v, v.truthy = true → csvCell v = pyStr v) ∧
    (∀ v, v.truthy = false → csvCell v = "") ∧
    csvCell .none = "" ∧ csvCell (.int 0) = "" ∧ csvCell (.bool false) = "" := by
  refine ⟨fun fs => rfl, fun fs => rfl, ?_, ?_, rfl, rfl, rfl⟩
  · intro v hv
    simp [csvCell, hv]
  · intro v hv
    simp [csvCell, hv]

/-- Witness for C2 (amended): a truthy string renders as itself, a populated
zero and a null both render as the empty cell. -/
theorem exportCsv_cell_rendering_witness :
    api_export_csv (mkLeadsBody [.dict [("name", .str "A"), ("rating", .int 0)]]) =
      .csvDoc [csvHeaders, exportRow [("name", .str "A"), ("rating", .int 0)]] ∧
    csvCell (.str "A") = "A" ∧ csvCell (.int 0) = "" ∧ csvCell .none = "" :=
  ⟨exportCsv_cell_rendering.1 _,
   exportCsv_cell_rendering.2.2.1 (.str "A") rfl,
   exportCsv_cell_rendering.2.2.2.2.2.1,
   exportCsv_cell_rendering.2.2.2.2.1⟩

/-- C1 counterexample: a fresh search whose upstream search call raises
`requests.Timeout`.  The handler answers HTTP 500 (`except Exception`), not
the claimed 502: `requests.Timeout` is not a `requests.HTTPError`, and
`raise_for_status` is never called, so the 502 branch cannot catch it.  Zero
leads are returned and no details call is attempted, as the trace shows. -/
theorem search_timeout_cex :
    api_search (some "KEY") timeoutUp (mkSearchBody "plumber" "Berlin") =
      (.internalError "Read timed out.",
       [.search { key := some "KEY", query := some "plumber in Berlin",
                  pagetoken := Option.none }]) ∧
    ∀ m, SearchResult.internalError "Read timed out." ≠ .httpError m :=
  ⟨rfl, fun _ h => SearchResult.noConfusion h⟩

/-- C1 (amended): when the upstream search call of a valid fresh search fails
with any exception other than `requests.HTTPError` (timeouts and connection
errors included), the whole operation fails with the catch-all HTTP 500
response carrying the underlying cause (`str(e)`), zero leads are returned,
and the trace holds exactly the one search call — no details calls. -/
theorem search_transport_error_500 (apiKey : Option String) (up : Upstream)
    (cat loc : String) (e : PyErr)
    (hc : ¬ stripStr cat = "") (hl : ¬ stripStr loc = "")
    (he : e.isRequestsHTTPError = false)
    (hs : up.search (textSearchParams apiKey
        (stripStr cat ++ " in " ++ stripStr loc) Option.none) = .error e) :
    api_search apiKey up (mkSearchBody cat loc) =
      (.internalError e.msg,
       [.search (textSearchParams apiKey
          (stripStr cat ++ " in " ++ stripStr loc) Option.none)]) := by
  rw [api_search_freshBody]
  have hcond : ((stripStr cat == "" || stripStr loc == "")
      && (Option.isNone (α := String) Option.none)) = false := by
    simp [hc, hl]
  rw [api_search_go_search_error apiKey up (stripStr cat) (stripStr loc)
      Option.none e hcond hs]
  simp [searchErrorResult, he]

/-- Witness for C1 (amended): a connection error on the search call of a
fresh `dentist`/`Wien` search yields the 500 response with the cause and a
trace of one search call. -/
theorem search_transport_error_500_witness :
    api_search Option.none connUp (mkSearchBody "dentist" "Wien") =
      (.internalError "Connection refused",
       [.search (textSearchParams Option.none ("dentist" ++ " in " ++ "Wien")
          Option.none)]) :=
  search_transport_error_500 Option.none connUp "dentist" "Wien"
    (.connectionError "Connection refused") (by decide) (by decide) rfl rfl

/-- C4: a search request with string-like fields fails with the HTTP 400
`InvalidRequest` response and issues zero outbound calls exactly when the
continuation token is absent after trimming (null, missing or
whitespace-only) and, after trimming, the category or the location is empty;
in every other case the handler issues at least the text-search call. -/
theorem search_validation_iff (apiKey : Option String) (up : Upstream)
    (cv lv tv : PyVal) (h1 : strLike cv = true) (h2 : strLike lv = true)
    (h3 : strLike tv = true) :
    ((api_search apiKey up (mkFullBody cv lv tv)).1 =
        .invalid "category and location are required" ∧
      (api_search apiKey up (mkFullBody cv lv tv)).2 = []) ↔
    (stripStr (effStr tv) = "" ∧
      (stripStr (effStr cv) = "" ∨ stripStr (effStr lv) = "")) := by
  rw [api_search_fullBody apiKey up cv lv tv h1 h2 h3]
  by_cases hts : stripStr (effStr tv) = ""
  · by_cases hcl : stripStr (effStr cv) = "" ∨ stripStr (effStr lv) = ""
    · have hcond : ((stripStr (effStr cv) == "" || stripStr (effStr lv) == "")
          && (if stripStr (effStr tv) == "" then Option.none
              else some (stripStr (effStr tv))).isNone) = true := by
        rcases hcl with h | h <;> simp [hts, h]
      rw [api_search_go_invalid apiKey up (stripStr (effStr cv))
          (stripStr (effStr lv)) _ hcond]
      simp [hts, hcl]
    · have hcond : ((stripStr (effStr cv) == "" || stripStr (effStr lv) == "")
          && (if stripStr (effStr tv) == "" then Option.none
              else some (stripStr (effStr tv))).isNone) = false := by
        push_neg at hcl
        simp [hcl.1, hcl.2]
      rcases api_search_go_calls apiKey up (stripStr (effStr cv))
          (stripStr (effStr lv)) _ hcond with ⟨rest, hr⟩
      constructor
      · rintro ⟨-, htr⟩
        rw [htr] at hr
        exact List.noConfusion hr
      · rintro ⟨-, hclx⟩
        exact absurd hclx hcl
  · have hcond : ((stripStr (effStr cv) == "" || stripStr (effStr lv) == "")
        && (if stripStr (effStr tv) == "" then Option.none
            else some (stripStr (effStr tv))).isNone) = false := by
      simp [hts]
    rcases api_search_go_calls apiKey up (stripStr (effStr cv))
        (stripStr (effStr lv)) _ hcond with ⟨rest, hr⟩
    constructor
    · rintro ⟨-, htr⟩
      rw [htr] at hr
      exact List.noConfusion hr
    · rintro ⟨htsx, -⟩
      exact absurd htsx hts

/-- Witness for C4: a whitespace-only category with a null token trips the
validation — 400 and an empty outbound trace. -/
theorem search_validation_iff_witness :
    (api_search Option.none connUp
        (mkFullBody (.str " ") (.str "Wien") .none)).1 =
      .invalid "category and location are required" ∧
    (api_search Option.none connUp
        (mkFullBody (.str " ") (.str "Wien") .none)).2 = [] :=
  (search_validation_iff Option.none connUp (.str " ") (.str "Wien") .none
      rfl rfl rfl).mpr (by decide)

/-- C5: a fresh (no-token) search with valid category and location sends the
literal `"<category> in <location>"` (on the trimmed values) as the only
free-text query parameter and no `pagetoken`; a search carrying a
non-whitespace continuation token sends only the (stripped) token and no
free-text query — and in both cases exactly one text-search call is made. -/
theorem search_upstream_params :
    (∀ (apiKey : Option String) (up : Upstream) (cat loc : String),
        ¬ stripStr cat = "" → ¬ stripStr loc = "" →
        searchCallsOf (api_search apiKey up (mkSearchBody cat loc)).2 =
          [{ key := apiKey,
             query := some (stripStr cat ++ " in " ++ stripStr loc),
             pagetoken := Option.none }]) ∧
    (∀ (apiKey : Option String) (up : Upstream) (cv lv : PyVal) (tok : String),
        strLike cv = true → strLike lv = true → ¬ stripStr tok = "" →
        searchCallsOf (api_search apiKey up
            (mkFullBody cv lv (.str tok))).2 =
          [{ key := apiKey, query := Option.none,
             pagetoken := some (stripStr tok) }]) := by
  constructor
  · intro apiKey up cat loc hc hl
    rw [api_search_freshBody]
    have hcond : ((stripStr cat == "" || stripStr loc == "")
        && (Option.isNone (α := String) Option.none)) = false := by
      simp [hc, hl]
    rw [api_search_go_searchCalls apiKey up (stripStr cat) (stripStr loc)
        Option.none hcond]
    rfl
  · intro apiKey up cv lv tok h1 h2 ht
    rw [api_search_fullBody apiKey up cv lv (.str tok) h1 h2 rfl]
    have hpt : (if stripStr (effStr (.str tok)) == "" then Option.none
        else some (stripStr (effStr (.str tok)))) = some (stripStr tok) := by
      simp [effStr, ht]
    rw [hpt]
    have hcond : ((stripStr (effStr cv) == "" || stripStr (effStr lv) == "")
        && (some (stripStr tok)).isNone) = false := by simp
    rw [api_search_go_searchCalls apiKey up (stripStr (effStr cv))
        (stripStr (effStr lv)) (some (stripStr tok)) hcond]
    simp [textSearchParams, ht]

/-- Witness for C5: both scenarios at concrete inputs — the fresh search
sends `query = "cafe in Graz"` and no token; the token search sends only
`pagetoken = "tok9"`. -/
theorem search_upstream_params_witness :
    searchCallsOf
        (api_search (some "KEY") connUp (mkSearchBody "cafe" "Graz")).2 =
      [{ key := some "KEY", query := some ("cafe" ++ " in " ++ "Graz"),
         pagetoken := Option.none }] ∧
    searchCallsOf (api_search (some "KEY") connUp
        (mkFullBody (.str "") (.str "") (.str "tok9"))).2 =
      [{ key := some "KEY", query := Option.none, pagetoken := some "tok9" }] :=
  ⟨search_upstream_params.1 (some "KEY") connUp "cafe" "Graz"
      (by decide) (by decide),
   search_upstream_params.2 (some "KEY") connUp (.str "") (.str "") "tok9"
      rfl rfl (by decide)⟩

/-- C3: whenever a valid fresh search succeeds, the returned leads are the
details-lookups of the extracted identifiers in their upstream order with the
"no result" identifiers skipped (`List.filterMap`), so at most as many leads
come back as there were identifiers, the skipped lookups do not fail the
operation, and the returned next-page token is the raw response token (when
it is a string) or the empty string (when the field was absent). -/
theorem search_leads_order_token (apiKey : Option String) (up : Upstream)
    (cat loc : String) (data : PyVal) (ids : List PyVal) (ntok : PyVal)
    (leads : List Lead) (t2 : List OutCall)
    (hc : ¬ stripStr cat = "") (hl : ¬ stripStr loc = "")
    (hs : up.search (textSearchParams apiKey
        (stripStr cat ++ " in " ++ stripStr loc) Option.none) = .ok data)
    (hx : extractPlaceIds data = .ok ids)
    (hn : data.getD "next_page_token" .none = .ok ntok)
    (hdl : detailsLoop up ids = (.ok leads, t2)) :
    ∃ tokOut,
      (api_search apiKey up (mkSearchBody cat loc)).1 = .ok leads tokOut ∧
      leads = ids.filterMap (detOpt up) ∧
      leads.length ≤ ids.length ∧
      (ntok = .none → tokOut = .str "") ∧
      (∀ s, ntok = .str s → tokOut = .str s) := by
  have hcond : ((stripStr cat == "" || stripStr loc == "")
      && (Option.isNone (α := String) Option.none)) = false := by
    simp [hc, hl]
  have hkey := api_search_go_ok apiKey up (stripStr cat) (stripStr loc)
    Option.none data ids ntok leads t2 hcond hs hx hn hdl
  refine ⟨if ntok.truthy then ntok else .str "", ?_, ?_, ?_, ?_, ?_⟩
  · rw [api_search_freshBody, hkey]
  · exact detailsLoop_fst_ok up ids leads t2 hdl
  · rw [detailsLoop_fst_ok up ids leads t2 hdl]
    exact List.length_filterMap_le _ _
  · intro h
    subst h
    rfl
  · intro s h
    subst h
    by_cases hsx : s = ""
    · subst hsx
      rfl
    · simp [PyVal.truthy, hsx]

/-- Witness for C3, the end-to-end scenario: three identifiers, details for
`id2` return "not found" — the search succeeds with exactly the two leads for
`id1` and `id3`, in that order, and the raw `tok-2` token. -/
theorem search_leads_order_token_witness :
    (api_search (some "KEY") scenUp (mkSearchBody "plumber" "Berlin")).1 =
      .ok [scenLead (.str "id1"), scenLead (.str "id3")] (.str "tok-2") ∧
    ([scenLead (.str "id1"), scenLead (.str "id3")] : List Lead).length ≤
      scenIds.length := by
  obtain ⟨tokOut, h1, -, hlen, -, hstr⟩ :=
    search_leads_order_token (some "KEY") scenUp "plumber" "Berlin" scenData
      scenIds (.str "tok-2") [scenLead (.str "id1"), scenLead (.str "id3")]
      scenTrace (by decide) (by decide) rfl rfl rfl rfl
  rw [hstr "tok-2" rfl] at h1
  exact ⟨h1, hlen⟩

theorem except_error_bind {α β : Type} (e : PyErr)
    (f : α → Except PyErr β) : (Except.error e >>= f) = Except.error e := rfl

theorem extract_ok_getD (data : PyVal) (ids : List PyVal) (k : String)
    (hx : extractPlaceIds data = .ok ids) :
    ∃ v, data.getD k .none = .ok v := by
  cases data with
  | dict fs => exact ⟨_, rfl⟩
  | none => simp [extractPlaceIds, PyVal.getD, except_error_bind] at hx
  | bool b => simp [extractPlaceIds, PyVal.getD, except_error_bind] at hx
  | int n => simp [extractPlaceIds, PyVal.getD, except_error_bind] at hx
  | str s => simp [extractPlaceIds, PyVal.getD, except_error_bind] at hx
  | list xs => simp [extractPlaceIds, PyVal.getD, except_error_bind] at hx

/-- C6: if any attempted details call of a valid fresh search raises — in
particular after earlier identifiers have already been resolved to leads —
the whole invocation fails: the handler produces only an error response
(502 or 500 depending on the exception class) and never a lead list. -/
theorem search_all_or_nothing (apiKey : Option String) (up : Upstream)
    (cat loc : String) (data : PyVal) (ids : List PyVal) (pid : PyVal)
    (e : PyErr)
    (hc : ¬ stripStr cat = "") (hl : ¬ stripStr loc = "")
    (hs : up.search (textSearchParams apiKey
        (stripStr cat ++ " in " ++ stripStr loc) Option.none) = .ok data)
    (hx : extractPlaceIds data = .ok ids)
    (hmem : pid ∈ ids)
    (hfail : google_place_details up pid = .error e) :
    (∃ m, (api_search apiKey up (mkSearchBody cat loc)).1 = .httpError m ∨
          (api_search apiKey up (mkSearchBody cat loc)).1 = .internalError m) ∧
    ∀ leads tok,
      (api_search apiKey up (mkSearchBody cat loc)).1 ≠ .ok leads tok := by
  have hcond : ((stripStr cat == "" || stripStr loc == "")
      && (Option.isNone (α := String) Option.none)) = false := by
    simp [hc, hl]
  obtain ⟨ntok, hn⟩ := extract_ok_getD data ids "next_page_token" hx
  obtain ⟨e2, he2⟩ := detailsLoop_fst_error up ids pid e hmem hfail
  rcases hdl : detailsLoop up ids with ⟨r, t2⟩
  rw [hdl] at he2
  simp only at he2
  subst he2
  have hkey := api_search_go_details_error apiKey up (stripStr cat)
    (stripStr loc) Option.none data ids ntok e2 t2 hcond hs hx hn hdl
  rw [api_search_freshBody, hkey]
  constructor
  · cases hh : e2.isRequestsHTTPError with
    | true =>
        exact ⟨"HTTP error: " ++ e2.msg,
          Or.inl (by simp [searchErrorResult, hh])⟩
    | false => exact ⟨e2.msg, Or.inr (by simp [searchErrorResult, hh])⟩
  · intro leads tok hEq
    cases hh : e2.isRequestsHTTPError <;>
      simp [searchErrorResult, hh] at hEq

/-- Witness for C6: two identifiers; the first resolves to a lead, the second
details call raises a connection error — the call produces only an error
response. -/
theorem search_all_or_nothing_witness :
    (∃ m,
      (api_search Option.none c6Up (mkSearchBody "cafe" "Graz")).1 =
        .httpError m ∨
      (api_search Option.none c6Up (mkSearchBody "cafe" "Graz")).1 =
        .internalError m) ∧
    (api_search Option.none c6Up (mkSearchBody "cafe" "Graz")).1 ≠
      .ok [] (.str "") := by
  obtain ⟨h1, h2⟩ := search_all_or_nothing Option.none c6Up "cafe" "Graz"
    (.dict [("results", .list
        [.dict [("place_id", .str "idA")],
         .dict [("place_id", .str "idB")]])])
    [.str "idA", .str "idB"] (.str "idB")
    (.connectionError "Connection reset")
    (by decide) (by decide) rfl rfl
    (List.mem_cons_of_mem _ (List.mem_cons_self _ _)) rfl
  exact ⟨h1, h2 [] (.str "")⟩
